import Mathlib

/-!
Verification of the Honeywell Total Connect Comfort integration
(custom_components/honeywell): a shallow embedding of the poll
coordinator retry ladder (coordinator.py), of the setup wiring
(for the coordinator, from the package init module), of the climate
command surface, and of the humidifier command surface, together with
theorems settling the specified behavioural properties.

Machine integers do not occur in the modelled code paths; temperatures
are embedded as integers (the tests only exercise integral values) and
raw hold-status codes as naturals.
-/

namespace Honeywell

/-! ## Error taxonomy of the remote client, as consumed by coordinator.py

The coordinator distinguishes: UnauthorizedError (raised by a device
refresh whose session is invalid), AuthError carrying a message (raised
by client.login), the four members of the _TRANSIENT_ERRORS tuple
(TimeoutError, aiosomecomfort ConnectionError, APIRateLimited,
aiohttp ClientConnectionError) and UnexpectedResponse. In the
aiosomecomfort hierarchy these classes are siblings, so each Python
except clause catches exactly the constructors listed for it below. -/

inductive AscError where
  | unauthorizedError : AscError
  | authError : String → AscError
  | timeoutError : AscError
  | connectionError : AscError
  | apiRateLimited : AscError
  | clientConnectionError : AscError
  | unexpectedResponse : AscError
deriving DecidableEq, Repr

/-- Membership in the _TRANSIENT_ERRORS tuple of coordinator.py
(TimeoutError, ConnectionError, APIRateLimited, ClientConnectionError). -/
def isTransientError : AscError → Bool
  | .timeoutError => true
  | .connectionError => true
  | .apiRateLimited => true
  | .clientConnectionError => true
  | _ => false

/-- Whether an except AuthError clause catches the exception. -/
def isAuthError : AscError → Bool
  | .authError _ => true
  | _ => false

/-- Python type name of the exception, as used by _fmt_error. -/
def excName : AscError → String
  | .unauthorizedError => "UnauthorizedError"
  | .authError _ => "AuthError"
  | .timeoutError => "TimeoutError"
  | .connectionError => "ConnectionError"
  | .apiRateLimited => "APIRateLimited"
  | .clientConnectionError => "ClientConnectionError"
  | .unexpectedResponse => "UnexpectedResponse"

/-- Python str of the exception: the message for AuthError instances
(login failures carry one), empty for the bare exception instances the
tests raise. -/
def excStr : AscError → String
  | .authError m => m
  | _ => ""

/-- Embedding of _fmt_error from coordinator.py. -/
def fmtError (e : AscError) : String :=
  if excStr e = "" then excName e else excName e ++ ": " ++ excStr e

/-- Whether the pattern list occurs at the head of the other list. -/
def leadsWith : List Char → List Char → Bool
  | [], _ => true
  | _ :: _, [] => false
  | p :: ps, c :: cs => p == c && leadsWith ps cs

/-- Whether the pattern list occurs as a contiguous slice. -/
def sliceIn (pat : List Char) : List Char → Bool
  | [] => leadsWith pat []
  | c :: cs => leadsWith pat (c :: cs) || sliceIn pat cs

/-- Embedding of the Python substring test, pat in s. -/
def strContains (s pat : String) : Bool :=
  sliceIn pat.toList s.toList

/-- Site-down signature tested by the coordinator on the message of the
second re-login failure. -/
def siteDownSignature : String := "Null cookie"

/-! ## Coordinator state and a single poll cycle

A device map is embedded as the list of device identifiers: the
coordinator never reads through the devices it holds, it only refreshes
them and returns the very mapping object it was constructed with, so
the identifiers suffice. -/

/-- Coordinator state: the devices mapping fixed at construction, the
cached data (None before the first successful refresh) and the
skip-next-refresh flag, exactly the mutable attributes of
HoneywellCoordinator in coordinator.py. -/
structure CoordState where
  devices : List Nat
  data : Option (List Nat)
  skipNextRefresh : Bool
deriving DecidableEq, Repr

/-- Outcomes of the remote calls a single poll cycle can make, in the
order the ladder makes them: the initial refresh, the first re-login,
the refresh after it, the second re-login, and the refresh after that.
A field is consulted only when the ladder reaches the call; none means
the call succeeds. -/
structure Behavior where
  r1 : Option AscError
  l1 : Option AscError
  r2 : Option AscError
  l2 : Option AscError
  r3 : Option AscError
deriving DecidableEq, Repr

/-- Result of one execution of _async_update_data: a returned mapping,
the fatal ConfigEntryAuthFailed signal, the recoverable UpdateFailed
signal, or an exception that escapes every except clause. -/
inductive UpdateResult where
  | ok : List Nat → UpdateResult
  | configEntryAuthFailed : String → UpdateResult
  | updateFailed : String → UpdateResult
  | uncaught : AscError → UpdateResult
deriving DecidableEq, Repr

/-- Output of one poll cycle: its result, the coordinator state
afterwards, the number of device.refresh invocations made, and the
number of client.login invocations made. -/
structure UpdateOutput where
  result : UpdateResult
  state : CoordState
  refreshCalls : Nat
  loginCalls : Nat
deriving DecidableEq, Repr

/-- Result and call counts of a partially executed ladder layer:
number of _async_refresh_devices sites run and of login attempts. -/
structure LadderOut where
  result : UpdateResult
  refreshSites : Nat
  logins : Nat
deriving DecidableEq, Repr

/-- Embedding of _async_refresh_devices: with no devices it returns at
once without any device.refresh call; otherwise the planned outcome of
the parallel refresh decides. -/
def refreshOutcome (st : CoordState) (planned : Option AscError) : Option AscError :=
  if st.devices.isEmpty then none else planned

/-- Embedding of _handle_transient_error: return the devices mapping as
stale data when prior data exists, raise UpdateFailed otherwise. -/
def handleTransientError (st : CoordState) (msg : String) : UpdateResult :=
  match st.data with
  | some _ => .ok st.devices
  | none => .updateFailed msg

/-- Null-cookie carve-out on an AuthError from the second re-login
ladder step (coordinator.py lines 113-120). -/
def nullCookieCheck (st : CoordState) (ex : AscError) : UpdateResult :=
  if strContains (excStr ex) siteDownSignature then
    handleTransientError st ("Login failed (site may be down): " ++ fmtError ex)
  else
    .configEntryAuthFailed "Incorrect credentials"

/-- Innermost try of the ladder: second login attempt and, when it
succeeds, the third refresh, with the except AuthError and
except _TRANSIENT_ERRORS clauses guarding both calls. -/
def secondRelogin (st : CoordState) (b : Behavior) : LadderOut :=
  match b.l2 with
  | some ex =>
      if isAuthError ex then ⟨nullCookieCheck st ex, 0, 1⟩
      else if isTransientError ex then
        ⟨handleTransientError st ("Failed to refresh after re-login retry: " ++ fmtError ex), 0, 1⟩
      else ⟨.uncaught ex, 0, 1⟩
  | none =>
      match refreshOutcome st b.r3 with
      | none => ⟨.ok st.devices, 1, 1⟩
      | some ex =>
          if isAuthError ex then ⟨nullCookieCheck st ex, 1, 1⟩
          else if isTransientError ex then
            ⟨handleTransientError st ("Failed to refresh after re-login retry: " ++ fmtError ex), 1, 1⟩
          else ⟨.uncaught ex, 1, 1⟩

/-- Middle try of the ladder: first login attempt and, when it
succeeds, the second refresh; an AuthError from either call descends
into the second re-login, a transient error serves stale data. -/
def firstRelogin (st : CoordState) (b : Behavior) : LadderOut :=
  match b.l1 with
  | some ex =>
      if isAuthError ex then
        let inner := secondRelogin st b
        ⟨inner.result, inner.refreshSites, inner.logins + 1⟩
      else if isTransientError ex then
        ⟨handleTransientError st ("Failed to refresh after re-login: " ++ fmtError ex), 0, 1⟩
      else ⟨.uncaught ex, 0, 1⟩
  | none =>
      match refreshOutcome st b.r2 with
      | none => ⟨.ok st.devices, 1, 1⟩
      | some ex =>
          if isAuthError ex then
            let inner := secondRelogin st b
            ⟨inner.result, inner.refreshSites + 1, inner.logins + 1⟩
          else if isTransientError ex then
            ⟨handleTransientError st ("Failed to refresh after re-login: " ++ fmtError ex), 1, 1⟩
          else ⟨.uncaught ex, 1, 1⟩

/-- Embedding of HoneywellCoordinator._async_update_data: the skip flag
short-circuits the cycle once; otherwise the initial refresh runs, an
UnauthorizedError enters the re-login ladder, a transient error or an
UnexpectedResponse serves stale data, and success returns the devices
mapping. -/
def asyncUpdateData (st : CoordState) (b : Behavior) : UpdateOutput :=
  if st.skipNextRefresh then
    { result := .ok st.devices
      state := { st with skipNextRefresh := false }
      refreshCalls := 0
      loginCalls := 0 }
  else
    match refreshOutcome st b.r1 with
    | none =>
        { result := .ok st.devices, state := st
          refreshCalls := st.devices.length, loginCalls := 0 }
    | some ex =>
        if ex = .unauthorizedError then
          let lad := firstRelogin st b
          { result := lad.result, state := st
            refreshCalls := st.devices.length * (1 + lad.refreshSites)
            loginCalls := lad.logins }
        else if isTransientError ex then
          { result := handleTransientError st ("Connection failed: " ++ fmtError ex)
            state := st, refreshCalls := st.devices.length, loginCalls := 0 }
        else if ex = .unexpectedResponse then
          { result := handleTransientError st ("Unexpected API response: " ++ fmtError ex)
            state := st, refreshCalls := st.devices.length, loginCalls := 0 }
        else
          { result := .uncaught ex, state := st
            refreshCalls := st.devices.length, loginCalls := 0 }

/-- State transition of one coordinator cycle: the framework stores a
returned mapping as the new data; on a raised signal the prior data is
kept. -/
def tick (st : CoordState) (b : Behavior) : CoordState :=
  let out := asyncUpdateData st b
  match out.result with
  | .ok d => { out.state with data := some d }
  | _ => out.state

/-- Constructor of HoneywellCoordinator: devices as discovered, no data
yet, and the skip-next-refresh flag initialised to False. -/
def newCoordinator (devices : List Nat) : CoordState :=
  { devices := devices, data := none, skipNextRefresh := false }

/-- Coordinator-related tail of async_setup_entry (package init module,
lines 78-79): the coordinator is constructed from the discovered
devices and the first refresh cycle runs immediately; no attribute of
the coordinator is assigned between the two steps. -/
def setupFirstCycle (devices : List Nat) (b : Behavior) : UpdateOutput :=
  asyncUpdateData (newCoordinator devices) b

/-- Behavior in which every remote call succeeds. -/
def allOk : Behavior := ⟨none, none, none, none, none⟩

/-- Reachability invariant of the coordinator: cached data is either
absent or the very devices mapping held since construction. -/
def dataInv (st : CoordState) : Prop :=
  st.data = none ∨ st.data = some st.devices

/-! ## Shared lemmas about one poll cycle -/

theorem refreshOutcome_of_ne (st : CoordState) (p : Option AscError)
    (h : st.devices ≠ []) : refreshOutcome st p = p := by
  simp [refreshOutcome, List.isEmpty_iff, h]

theorem handleTransientError_ok {st : CoordState} {msg : String} {r : List Nat}
    (h : handleTransientError st msg = .ok r) : r = st.devices := by
  unfold handleTransientError at h
  cases hd : st.data <;> rw [hd] at h <;> simp_all

theorem handleTransientError_ne_auth (st : CoordState) (msg m : String) :
    handleTransientError st msg ≠ .configEntryAuthFailed m := by
  unfold handleTransientError
  cases st.data <;> simp

theorem nullCookieCheck_ok {st : CoordState} {ex : AscError} {r : List Nat}
    (h : nullCookieCheck st ex = .ok r) : r = st.devices := by
  unfold nullCookieCheck at h
  split at h
  · exact handleTransientError_ok h
  · simp_all

theorem secondRelogin_ok {st : CoordState} {b : Behavior} {r : List Nat}
    (h : (secondRelogin st b).result = .ok r) : r = st.devices := by
  unfold secondRelogin at h
  split at h
  · split at h
    · exact nullCookieCheck_ok h
    · split at h
      · exact handleTransientError_ok h
      · simp_all
  · split at h
    · simp_all
    · split at h
      · exact nullCookieCheck_ok h
      · split at h
        · exact handleTransientError_ok h
        · simp_all

theorem firstRelogin_ok {st : CoordState} {b : Behavior} {r : List Nat}
    (h : (firstRelogin st b).result = .ok r) : r = st.devices := by
  unfold firstRelogin at h
  split at h
  · split at h
    · exact secondRelogin_ok h
    · split at h
      · exact handleTransientError_ok h
      · simp_all
  · split at h
    · simp_all
    · split at h
      · exact secondRelogin_ok h
      · split at h
        · exact handleTransientError_ok h
        · simp_all

/-- Every non-raising cycle returns the devices mapping of the state it
ran on (shared helper behind the snapshot-identity claims). -/
theorem update_result_ok_eq {st : CoordState} {b : Behavior} {r : List Nat}
    (h : (asyncUpdateData st b).result = .ok r) : r = st.devices := by
  unfold asyncUpdateData at h
  split at h
  · simp_all
  · split at h
    · simp_all
    · split at h
      · exact firstRelogin_ok h
      · split at h
        · exact handleTransientError_ok h
        · split at h
          · exact handleTransientError_ok h
          · simp_all

theorem update_state_devices (st : CoordState) (b : Behavior) :
    (asyncUpdateData st b).state.devices = st.devices := by
  unfold asyncUpdateData
  split
  · rfl
  · split
    · rfl
    · split
      · rfl
      · split
        · rfl
        · split <;> rfl

theorem update_state_data (st : CoordState) (b : Behavior) :
    (asyncUpdateData st b).state.data = st.data := by
  unfold asyncUpdateData
  split
  · rfl
  · split
    · rfl
    · split
      · rfl
      · split
        · rfl
        · split <;> rfl

theorem dataInv_newCoordinator (devices : List Nat) :
    dataInv (newCoordinator devices) := Or.inl rfl

theorem dataInv_tick (st : CoordState) (b : Behavior) (h : dataInv st) :
    dataInv (tick st b) := by
  unfold tick
  cases hres : (asyncUpdateData st b).result with
  | ok d =>
      simp [dataInv, hres, update_state_devices, update_result_ok_eq hres]
  | configEntryAuthFailed m =>
      simpa [dataInv, hres, update_state_devices, update_state_data] using h
  | updateFailed m =>
      simpa [dataInv, hres, update_state_devices, update_state_data] using h
  | uncaught e =>
      simpa [dataInv, hres, update_state_devices, update_state_data] using h

/-! ## Claim theorems about the poll coordinator -/

/-- C1: when a poll cycle (skip flag clear, at least one device) sees
the initial refresh fail with UnauthorizedError and both re-login
attempts fail with an AuthError whose message lacks the site-down
signature, the cycle raises ConfigEntryAuthFailed; the conclusion holds
for every cached-data state, so the fatal signal is never masked by a
prior snapshot. -/
theorem relogin_persistent_auth_failure
    (st : CoordState) (b : Behavior) (m1 m2 : String)
    (hskip : st.skipNextRefresh = false) (hdev : st.devices ≠ [])
    (hr1 : b.r1 = some .unauthorizedError)
    (hl1 : b.l1 = some (.authError m1)) (hl2 : b.l2 = some (.authError m2))
    (_hm1 : strContains m1 siteDownSignature = false)
    (hm2 : strContains m2 siteDownSignature = false) :
    (asyncUpdateData st b).result = .configEntryAuthFailed "Incorrect credentials" := by
  unfold asyncUpdateData
  rw [if_neg (by simp [hskip]), refreshOutcome_of_ne st _ hdev, hr1]
  simp only [reduceIte]
  unfold firstRelogin
  rw [hl1]
  simp only [isAuthError, reduceIte]
  unfold secondRelogin
  rw [hl2]
  simp only [isAuthError, reduceIte]
  unfold nullCookieCheck
  simp [excStr, hm2]

theorem relogin_persistent_auth_failure_witness :
    strContains "" siteDownSignature = false ∧
    (asyncUpdateData ⟨[1], some [1], false⟩
        ⟨some .unauthorizedError, some (.authError ""), none,
         some (.authError ""), none⟩).result
      = .configEntryAuthFailed "Incorrect credentials" :=
  ⟨by decide,
   relogin_persistent_auth_failure ⟨[1], some [1], false⟩
     ⟨some .unauthorizedError, some (.authError ""), none, some (.authError ""), none⟩
     "" "" rfl (by decide) rfl rfl rfl (by decide) (by decide)⟩

/-- C2: a poll cycle whose initial refresh fails with one of the
transient errors or with UnexpectedResponse, in a reachable state with
a prior snapshot, returns that snapshot unchanged; the result is a
plain return, so no fatal signal fires and no exception is raised. -/
theorem transient_error_with_prior_snapshot_returns_cached
    (st : CoordState) (b : Behavior) (e : AscError) (d : List Nat)
    (hskip : st.skipNextRefresh = false) (hdev : st.devices ≠ [])
    (hr1 : b.r1 = some e)
    (he : isTransientError e = true ∨ e = .unexpectedResponse)
    (hinv : dataInv st) (hdata : st.data = some d) :
    (asyncUpdateData st b).result = .ok d := by
  have hdev_eq : d = st.devices := by
    rcases hinv with h | h
    · rw [hdata] at h; cases h
    · rw [hdata] at h; injection h
  have hne : e ≠ .unauthorizedError := by
    rintro rfl
    rcases he with h | h <;> simp [isTransientError] at h
  unfold asyncUpdateData
  rw [if_neg (by simp [hskip]), refreshOutcome_of_ne st _ hdev, hr1]
  rcases he with h | h
  · simp [hne, h, handleTransientError, hdata, hdev_eq]
  · subst h
    simp [handleTransientError, hdata, hdev_eq, isTransientError]

theorem transient_error_with_prior_snapshot_returns_cached_witness :
    (⟨[7], some [7], false⟩ : CoordState).data = some [7] ∧
    (asyncUpdateData ⟨[7], some [7], false⟩
        ⟨some .timeoutError, none, none, none, none⟩).result = .ok [7] :=
  ⟨rfl,
   transient_error_with_prior_snapshot_returns_cached ⟨[7], some [7], false⟩
     ⟨some .timeoutError, none, none, none, none⟩ .timeoutError [7]
     rfl (by decide) rfl (Or.inl rfl) (Or.inr rfl) rfl⟩

/-- C4: when both re-login attempts fail with an AuthError whose
message carries the Null cookie site-down signature, the cycle never
raises ConfigEntryAuthFailed, and whenever a prior snapshot exists in a
reachable state it is returned as cached data. -/
theorem null_cookie_relogin_treated_transient
    (st : CoordState) (b : Behavior) (m1 m2 : String)
    (hskip : st.skipNextRefresh = false) (hdev : st.devices ≠ [])
    (hr1 : b.r1 = some .unauthorizedError)
    (hl1 : b.l1 = some (.authError m1)) (hl2 : b.l2 = some (.authError m2))
    (_hm1 : strContains m1 siteDownSignature = true)
    (hm2 : strContains m2 siteDownSignature = true)
    (hinv : dataInv st) :
    (∀ m, (asyncUpdateData st b).result ≠ .configEntryAuthFailed m) ∧
    (∀ d, st.data = some d → (asyncUpdateData st b).result = .ok d) := by
  have hcompute :
      (asyncUpdateData st b).result
        = handleTransientError st
            ("Login failed (site may be down): " ++ fmtError (.authError m2)) := by
    unfold asyncUpdateData
    rw [if_neg (by simp [hskip]), refreshOutcome_of_ne st _ hdev, hr1]
    simp only [reduceIte]
    unfold firstRelogin
    rw [hl1]
    simp only [isAuthError, reduceIte]
    unfold secondRelogin
    rw [hl2]
    simp only [isAuthError, reduceIte]
    unfold nullCookieCheck
    simp [excStr, hm2]
  constructor
  · intro m
    rw [hcompute]
    exact handleTransientError_ne_auth st _ m
  · intro d hdata
    have hdev_eq : d = st.devices := by
      rcases hinv with h | h
      · rw [hdata] at h; cases h
      · rw [hdata] at h; injection h
    rw [hcompute]
    simp [handleTransientError, hdata, hdev_eq]

theorem null_cookie_relogin_treated_transient_witness :
    strContains "Null cookie connection error 200" siteDownSignature = true ∧
    (asyncUpdateData ⟨[3], some [3], false⟩
        ⟨some .unauthorizedError,
         some (.authError "Null cookie connection error 200"), none,
         some (.authError "Null cookie connection error 200"), none⟩).result = .ok [3] :=
  ⟨by decide,
   (null_cookie_relogin_treated_transient ⟨[3], some [3], false⟩
     ⟨some .unauthorizedError,
      some (.authError "Null cookie connection error 200"), none,
      some (.authError "Null cookie connection error 200"), none⟩
     "Null cookie connection error 200" "Null cookie connection error 200"
     rfl (by decide) rfl rfl rfl (by decide) (by decide) (Or.inr rfl)).2 [3] rfl⟩

/-- C5: a poll cycle with no prior snapshot whose initial refresh fails
with a transient error (or UnexpectedResponse) fails with the
recoverable UpdateFailed signal and never with ConfigEntryAuthFailed. -/
theorem transient_error_no_prior_snapshot_update_failed
    (st : CoordState) (b : Behavior) (e : AscError)
    (hskip : st.skipNextRefresh = false) (hdev : st.devices ≠ [])
    (hr1 : b.r1 = some e)
    (he : isTransientError e = true ∨ e = .unexpectedResponse)
    (hdata : st.data = none) :
    (∃ msg, (asyncUpdateData st b).result = .updateFailed msg) ∧
    (∀ m, (asyncUpdateData st b).result ≠ .configEntryAuthFailed m) := by
  have hne : e ≠ .unauthorizedError := by
    rintro rfl
    rcases he with h | h <;> simp [isTransientError] at h
  have hcompute : ∃ msg, (asyncUpdateData st b).result = .updateFailed msg := by
    unfold asyncUpdateData
    rw [if_neg (by simp [hskip]), refreshOutcome_of_ne st _ hdev, hr1]
    rcases he with h | h
    · refine ⟨"Connection failed: " ++ fmtError e, ?_⟩
      simp [hne, h, handleTransientError, hdata]
    · subst h
      refine ⟨"Unexpected API response: " ++ fmtError .unexpectedResponse, ?_⟩
      simp [handleTransientError, hdata, isTransientError]
  refine ⟨hcompute, ?_⟩
  obtain ⟨msg, hmsg⟩ := hcompute
  intro m
  rw [hmsg]
  simp

theorem transient_error_no_prior_snapshot_update_failed_witness :
    (⟨[1], none, false⟩ : CoordState).data = none ∧
    (∃ msg, (asyncUpdateData ⟨[1], none, false⟩
        ⟨some .timeoutError, none, none, none, none⟩).result = .updateFailed msg) :=
  ⟨rfl,
   (transient_error_no_prior_snapshot_update_failed ⟨[1], none, false⟩
     ⟨some .timeoutError, none, none, none, none⟩ .timeoutError
     rfl (by decide) rfl (Or.inl rfl) rfl).1⟩

/-- C9: every non-raising execution of the update function returns
exactly the devices mapping held since construction, never a null and
never a substituted container, and leaves that mapping in place in the
coordinator state. -/
theorem update_ok_returns_construction_devices
    (st : CoordState) (b : Behavior) (r : List Nat)
    (h : (asyncUpdateData st b).result = .ok r) :
    r = st.devices ∧ (asyncUpdateData st b).state.devices = st.devices :=
  ⟨update_result_ok_eq h, update_state_devices st b⟩

theorem update_ok_returns_construction_devices_witness :
    (asyncUpdateData ⟨[1, 2], some [1, 2], false⟩ allOk).result = .ok [1, 2] ∧
    [1, 2] = (⟨[1, 2], some [1, 2], false⟩ : CoordState).devices :=
  ⟨by decide,
   (update_ok_returns_construction_devices ⟨[1, 2], some [1, 2], false⟩ allOk [1, 2]
     (by decide)).1⟩

/-- C3 (code slip): the skip-next-refresh flag is initialised to False
by the constructor and no statement of the sources ever sets it, so the
very first refresh cycle after setup calls device.refresh on the single
discovered device instead of returning the already-populated devices
without refreshing (the behaviour the tests
test_first_refresh_skipped_then_second_refreshes and
test_coordinator_setup_succeeds_despite_refresh_error demand). -/
theorem skip_flag_never_set_first_cycle_refreshes :
    (newCoordinator [1]).skipNextRefresh = false ∧
    (setupFirstCycle [1] allOk).refreshCalls = 1 ∧
    (setupFirstCycle [1] allOk).result = .ok [1] := by
  decide

/-! ## Climate command surface (HoldReconciler)

The climate module itself is not among the provided sources; only its
tests are. The definitions below are therefore reconstructions. -/

/-- Modelled from the spec: the operating mode read from the device
snapshot, section 4.2 of the spec (climate.py is missing from the
sources); unknown stands for any unrecognised system_mode string such
as the Junk value the tests inject. -/
inductive SystemMode where
  | off
  | heat
  | cool
  | auto
  | unknown
deriving DecidableEq, Repr

/-- Modelled from the spec: the per-command view of one device
(climate.py is missing from the sources): operating mode and the
hold_heat and hold_cool flags consulted by the single-target
temperature path. -/
structure ClimateDevice where
  mode : SystemMode
  holdHeat : Bool
  holdCool : Bool
deriving DecidableEq, Repr

/-- Modelled from the spec: the externally configured away setpoints of
section 3 of the spec (climate.py is missing from the sources); the
tests configure heat 22 and cool 12. -/
structure AwayConfig where
  awayHeatTemp : Int
  awayCoolTemp : Int
deriving DecidableEq, Repr

/-- Mutator calls on the device handle, one constructor per call shape
the tests assert: bare setpoint, bare permanent hold on or off,
permanent hold with away setpoint, and temporary hold until a reset
time carrying a setpoint. -/
inductive MutatorCall where
  | setSetpointHeat : Int → MutatorCall
  | setSetpointCool : Int → MutatorCall
  | setHoldHeatOn : MutatorCall
  | setHoldCoolOn : MutatorCall
  | setHoldHeatClear : MutatorCall
  | setHoldCoolClear : MutatorCall
  | setHoldHeatAway : Int → MutatorCall
  | setHoldCoolAway : Int → MutatorCall
  | setHoldHeatTimed : Nat → Nat → Int → MutatorCall
  | setHoldCoolTimed : Nat → Nat → Int → MutatorCall
deriving DecidableEq, Repr

/-- Whether the call is a temporary hold carrying a setpoint. -/
def isTimedHoldCall : MutatorCall → Bool
  | .setHoldHeatTimed _ _ _ => true
  | .setHoldCoolTimed _ _ _ => true
  | _ => false

/-- Whether the call is a bare setpoint change. -/
def isBareSetpointCall : MutatorCall → Bool
  | .setSetpointHeat _ => true
  | .setSetpointCool _ => true
  | _ => false

/-- Whether the call touches a hold in any shape. -/
def isHoldCall : MutatorCall → Bool
  | .setSetpointHeat _ => false
  | .setSetpointCool _ => false
  | _ => true

/-- User commands of the climate surface the claims quantify over. -/
inductive ClimateCommand where
  | setTemperature : Int → ClimateCommand
  | setTemperatureRange : Int → Int → ClimateCommand
  | presetAway : ClimateCommand
  | presetHold : ClimateCommand
  | presetNone : ClimateCommand
deriving DecidableEq, Repr

/-- Result of one climate command: the device mutator calls issued in
order, the away-hold memory afterwards, and whether the command failed
up front with the invalid-system-mode error (in which case no call was
made). -/
structure CommandOutput where
  calls : List MutatorCall
  away : Bool
  invalidState : Bool
deriving DecidableEq, Repr

/-- Modelled from the spec: calls of the single-target temperature path
(climate.py is missing from the sources), spec section 4.2 with the
temporary-hold carve-out at reset time 02:30, fixed by the tests: in
heat and cool a circuit with no active hold receives a temporary hold
carrying the setpoint, an active hold receives a bare setpoint; in auto
both circuits are treated that way (cool circuit first); off and
unrecognised modes issue nothing. -/
def singleTempCalls (d : ClimateDevice) (t : Int) : List MutatorCall :=
  match d.mode with
  | .heat => if d.holdHeat then [.setSetpointHeat t] else [.setHoldHeatTimed 2 30 t]
  | .cool => if d.holdCool then [.setSetpointCool t] else [.setHoldCoolTimed 2 30 t]
  | .auto =>
      (if d.holdCool then [.setSetpointCool t] else [.setHoldCoolTimed 2 30 t])
        ++ (if d.holdHeat then [.setSetpointHeat t] else [.setHoldHeatTimed 2 30 t])
  | .off => []
  | .unknown => []

/-- Modelled from the spec: calls of the low/high pair path (climate.py
is missing from the sources). The tests pin this down in every mode
(off, heat, cool, auto): the pair is applied as two bare setpoint
calls, cool to high then heat to low, with no mode gate and no hold
call; this overrides the narrower wording of spec section 4.2. -/
def pairTempCalls (low high : Int) : List MutatorCall :=
  [.setSetpointCool high, .setSetpointHeat low]

/-- Modelled from the spec: calls of the away preset in a recognised
mode, spec section 4.2 (climate.py is missing from the sources): a
permanent hold carrying the configured away setpoint on the circuits of
the current mode, cool circuit first in auto; nothing in off mode. In
an unrecognised mode the command fails up front in executeCommand per
the unknown-mode rule of section 4.2, so this list is empty there. -/
def awayActivationCalls (cfg : AwayConfig) (d : ClimateDevice) : List MutatorCall :=
  match d.mode with
  | .heat => [.setHoldHeatAway cfg.awayHeatTemp]
  | .cool => [.setHoldCoolAway cfg.awayCoolTemp]
  | .auto => [.setHoldCoolAway cfg.awayCoolTemp, .setHoldHeatAway cfg.awayHeatTemp]
  | .off => []
  | .unknown => []

/-- Modelled from the spec: calls of the hold preset, spec section 4.2
(climate.py is missing from the sources): a bare permanent hold on the
circuits of the current mode, cool circuit first in auto, nothing in
off mode, and an invalid-system-mode failure without any call in an
unrecognised mode (the tests show no per-circuit redundancy skip). -/
def holdPresetCalls (d : ClimateDevice) : List MutatorCall :=
  match d.mode with
  | .heat => [.setHoldHeatOn]
  | .cool => [.setHoldCoolOn]
  | .auto => [.setHoldCoolOn, .setHoldHeatOn]
  | .off => []
  | .unknown => []

/-- Modelled from the spec: calls of the none preset in a recognised
mode (climate.py is missing from the sources). The tests pin this down
for the recognised modes: hold is cleared on both circuits, cool then
heat, in off, heat, cool and auto alike, which overrides the
circuits-of-the-current-mode wording of spec section 4.2; in an
unrecognised mode the command fails up front in executeCommand per the
unknown-mode rule of section 4.2 and none of these calls is made. -/
def nonePresetCalls : List MutatorCall :=
  [.setHoldCoolClear, .setHoldHeatClear]

/-- Modelled from the spec: one climate command against one device
snapshot and the current away-hold memory (climate.py is missing from
the sources): away activation records the memory, the hold and none
presets clear it, the none preset clears it unconditionally; away
activation itself never consults the memory. Per the unknown-mode rule
of spec section 4.2, every preset command issued in an unrecognised
mode fails immediately with the invalid-state error and makes no
mutator call; the memory update of the preset dispatch still happens,
as it precedes the mode check. -/
def executeCommand (cfg : AwayConfig) (d : ClimateDevice) (away : Bool) :
    ClimateCommand → CommandOutput
  | .setTemperature t => ⟨singleTempCalls d t, away, false⟩
  | .setTemperatureRange low high => ⟨pairTempCalls low high, away, false⟩
  | .presetAway =>
      if d.mode = .unknown then ⟨[], true, true⟩
      else ⟨awayActivationCalls cfg d, true, false⟩
  | .presetHold =>
      if d.mode = .unknown then ⟨[], false, true⟩
      else ⟨holdPresetCalls d, false, false⟩
  | .presetNone =>
      if d.mode = .unknown then ⟨[], false, true⟩
      else ⟨nonePresetCalls, false, false⟩

/-- Sequential execution of climate commands against a fixed device
snapshot, threading the away-hold memory and concatenating the issued
calls. -/
def runCommands (cfg : AwayConfig) (d : ClimateDevice) (away : Bool) :
    List ClimateCommand → Bool × List MutatorCall
  | [] => (away, [])
  | c :: cs =>
      let out := executeCommand cfg d away c
      let rest := runCommands cfg d out.away cs
      (rest.1, out.calls ++ rest.2)

/-- Away-hold memory left by a sequence extended with one more command:
the memory after the sequence, then the effect of the last command. -/
theorem runCommands_fst_append_single
    (cfg : AwayConfig) (d : ClimateDevice) (a : Bool)
    (pre : List ClimateCommand) (c : ClimateCommand) :
    (runCommands cfg d a (pre ++ [c])).1
      = (executeCommand cfg d (runCommands cfg d a pre).1 c).away := by
  induction pre generalizing a with
  | nil => simp [runCommands]
  | cons x xs ih => simp [runCommands, ih]

/-! ## Claim theorems about the climate command surface -/

/-- C6 counterexample: with the device in off mode, a low/high pair
set-temperature command issues the two bare setpoint mutator calls and
the none preset issues the two hold-clear mutator calls, exactly as the
off-mode service-call test asserts, so off mode does not suppress every
mutator call. -/
theorem off_mode_pair_and_none_issue_calls_cx :
    (executeCommand ⟨22, 12⟩ ⟨.off, false, false⟩ false
        (.setTemperatureRange 25 35)).calls
      = [.setSetpointCool 35, .setSetpointHeat 25] ∧
    (executeCommand ⟨22, 12⟩ ⟨.off, false, false⟩ false .presetNone).calls
      = [.setHoldCoolClear, .setHoldHeatClear] ∧
    (executeCommand ⟨22, 12⟩ ⟨.off, false, false⟩ false
        (.setTemperatureRange 25 35)).calls ≠ [] := by
  decide

/-- C6 amended: in off and unknown modes the single-target temperature
command and the away and hold presets issue no mutator call; in off
mode the low/high pair nevertheless issues its two bare setpoint calls
and the none preset its two hold-clear calls (as the off-mode tests
assert), while in unknown mode every preset command, the none preset
included, fails immediately with the invalid-state error and issues no
mutator call (the unknown-mode rule of spec section 4.2). -/
theorem off_unknown_mode_command_calls
    (cfg : AwayConfig) (d : ClimateDevice) (a : Bool) (t low high : Int)
    (h : d.mode = .off ∨ d.mode = .unknown) :
    (executeCommand cfg d a (.setTemperature t)).calls = [] ∧
    (executeCommand cfg d a .presetAway).calls = [] ∧
    (executeCommand cfg d a .presetHold).calls = [] ∧
    (d.mode = .off →
      (executeCommand cfg d a (.setTemperatureRange low high)).calls
        = [.setSetpointCool high, .setSetpointHeat low] ∧
      (executeCommand cfg d a .presetNone).calls
        = [.setHoldCoolClear, .setHoldHeatClear]) ∧
    (d.mode = .unknown →
      (executeCommand cfg d a .presetNone).calls = [] ∧
      (executeCommand cfg d a .presetAway).invalidState = true ∧
      (executeCommand cfg d a .presetHold).invalidState = true ∧
      (executeCommand cfg d a .presetNone).invalidState = true) := by
  rcases h with h | h <;>
    simp [executeCommand, singleTempCalls, awayActivationCalls, holdPresetCalls,
      pairTempCalls, nonePresetCalls, h]

theorem off_unknown_mode_command_calls_witness :
    ((⟨.off, false, false⟩ : ClimateDevice).mode = .off ∨
      (⟨.off, false, false⟩ : ClimateDevice).mode = .unknown) ∧
    (executeCommand ⟨22, 12⟩ ⟨.off, false, false⟩ false (.setTemperature 35)).calls = [] :=
  ⟨Or.inl rfl,
   (off_unknown_mode_command_calls ⟨22, 12⟩ ⟨.off, false, false⟩ false 35 25 35
     (Or.inl rfl)).1⟩

/-- C7 counterexample: with mode auto and no hold active on either
circuit, the low/high pair command issues the two bare setpoint calls
(cool to high, heat to low) and no temporary-hold-with-setpoint call,
exactly as the auto-mode service-call test asserts (lines 901-912), so
the pair is not translated into temporary holds. -/
theorem auto_pair_no_hold_bare_setpoints_cx :
    (executeCommand ⟨22, 12⟩ ⟨.auto, false, false⟩ false
        (.setTemperatureRange 25 35)).calls
      = [.setSetpointCool 35, .setSetpointHeat 25] ∧
    ((executeCommand ⟨22, 12⟩ ⟨.auto, false, false⟩ false
        (.setTemperatureRange 25 35)).calls.filter isTimedHoldCall) = [] ∧
    ((executeCommand ⟨22, 12⟩ ⟨.auto, false, false⟩ false
        (.setTemperatureRange 25 35)).calls.filter isBareSetpointCall).length = 2 := by
  decide

/-- C7 amended: a low/high pair issued while the mode is auto and no
hold is active produces exactly the two independent bare setpoint calls
(cool to high, heat to low) and no hold call of any shape; the
temporary-hold-with-setpoint at reset time 02:30 belongs to the
single-target command on a circuit with no active hold. -/
theorem auto_pair_issues_bare_setpoints
    (cfg : AwayConfig) (d : ClimateDevice) (a : Bool) (low high t : Int)
    (hmode : d.mode = .auto) (hh : d.holdHeat = false) (hc : d.holdCool = false) :
    (executeCommand cfg d a (.setTemperatureRange low high)).calls
      = [.setSetpointCool high, .setSetpointHeat low] ∧
    (∀ c ∈ (executeCommand cfg d a (.setTemperatureRange low high)).calls,
      isHoldCall c = false) ∧
    (executeCommand cfg d a (.setTemperature t)).calls
      = [.setHoldCoolTimed 2 30 t, .setHoldHeatTimed 2 30 t] := by
  refine ⟨rfl, ?_, ?_⟩
  · intro c hc
    simp [executeCommand, pairTempCalls] at hc
    rcases hc with rfl | rfl <;> rfl
  · simp [executeCommand, singleTempCalls, hmode, hh, hc]

theorem auto_pair_issues_bare_setpoints_witness :
    (⟨.auto, false, false⟩ : ClimateDevice).mode = .auto ∧
    (executeCommand ⟨22, 12⟩ ⟨.auto, false, false⟩ false
        (.setTemperatureRange 25 35)).calls
      = [.setSetpointCool 35, .setSetpointHeat 25] :=
  ⟨rfl,
   (auto_pair_issues_bare_setpoints ⟨22, 12⟩ ⟨.auto, false, false⟩ false 25 35 15
     rfl rfl rfl).1⟩

/-- C8: the none preset leaves the away-hold memory cleared after any
command sequence, in every mode, and the away activation never consults
that memory: whatever the memory holds, requesting the away preset
produces one and the same output, the full activation call list with
the memory recorded anew in a recognised mode and the up-front
invalid-state failure in an unrecognised one, so an away request after
a none is performed in full and is never suppressed or altered by a
stale memory. -/
theorem preset_none_clears_away_memory
    (cfg : AwayConfig) (d : ClimateDevice) (a : Bool) (pre : List ClimateCommand) :
    (runCommands cfg d a (pre ++ [.presetNone])).1 = false ∧
    (∀ m : Bool, executeCommand cfg d m .presetAway
        = if d.mode = .unknown then ⟨[], true, true⟩
          else ⟨awayActivationCalls cfg d, true, false⟩) := by
  constructor
  · rw [runCommands_fst_append_single]
    simp only [executeCommand]
    split <;> rfl
  · intro m
    rfl

/-! ## Humidifier command surface (humidifier.py)

Each command method of HoneywellHumidifier awaits exactly one operation
bound by its entity description and wraps the three caught exception
classes (SomeComfortError, TimeoutError, ClientConnectionError) into a
HomeAssistantError carrying a fixed translation key. -/

/-- Device operations reachable through the two entity descriptions of
the HUMIDIFIERS table. -/
inductive HumidDeviceOp where
  | setHumidifierAuto : HumidDeviceOp
  | setHumidifierOff : HumidDeviceOp
  | setHumidifierSetpoint : Int → HumidDeviceOp
  | setDehumidifierAuto : HumidDeviceOp
  | setDehumidifierOff : HumidDeviceOp
  | setDehumidifierSetpoint : Int → HumidDeviceOp
deriving DecidableEq, Repr

/-- Bindings of one HoneywellHumidifierEntityDescription relevant to
the command methods: the on, off and set_humidity operations. -/
structure HumidDescription where
  onOp : HumidDeviceOp
  offOp : HumidDeviceOp
  setOp : Int → HumidDeviceOp

/-- Humidifier variant of the HUMIDIFIERS table. -/
def humidifierDescription : HumidDescription :=
  ⟨.setHumidifierAuto, .setHumidifierOff, .setHumidifierSetpoint⟩

/-- Dehumidifier variant of the HUMIDIFIERS table. -/
def dehumidifierDescription : HumidDescription :=
  ⟨.setDehumidifierAuto, .setDehumidifierOff, .setDehumidifierSetpoint⟩

/-- Failure class of the awaited device operation: the three classes
caught by every command method, or any other exception, which escapes
the method. -/
inductive HumidOpError where
  | someComfortError : HumidOpError
  | timeoutError : HumidOpError
  | clientConnectionError : HumidOpError
  | otherError : HumidOpError
deriving DecidableEq, Repr

/-- Whether the except clause of the command methods catches the
error. -/
def isCaughtHumidError : HumidOpError → Bool
  | .otherError => false
  | _ => true

/-- User commands of the humidifier surface. -/
inductive HumidCommand where
  | turnOn : HumidCommand
  | turnOff : HumidCommand
  | setHumidity : Int → HumidCommand
deriving DecidableEq, Repr

/-- Outcome of one humidifier command: success, a raised
HomeAssistantError with its translation key, or an uncaught exception
escaping the method. -/
inductive HumidResult where
  | ok : HumidResult
  | homeAssistantError : String → HumidResult
  | propagated : HumidOpError → HumidResult
deriving DecidableEq, Repr

/-- Calls issued and result of one humidifier command. -/
structure HumidOutput where
  calls : List HumidDeviceOp
  result : HumidResult
deriving DecidableEq, Repr

/-- Device operation bound to a command by the entity description. -/
def boundOp (desc : HumidDescription) : HumidCommand → HumidDeviceOp
  | .turnOn => desc.onOp
  | .turnOff => desc.offOp
  | .setHumidity h => desc.setOp h

/-- Translation key of the HomeAssistantError each command method
raises on a caught failure. -/
def humidTranslationKey : HumidCommand → String
  | .turnOn => "humidity_on_failed"
  | .turnOff => "humidity_off_failed"
  | .setHumidity _ => "humidity_setpoint_failed"

/-- Embedding of async_turn_on, async_turn_off and async_set_humidity
of HoneywellHumidifier: await the single bound operation and translate
a caught failure into a HomeAssistantError; the entity mutates no state
of its own in these methods. -/
def runHumidCommand (desc : HumidDescription) (c : HumidCommand)
    (outcome : Option HumidOpError) : HumidOutput :=
  { calls := [boundOp desc c]
    result :=
      match outcome with
      | none => .ok
      | some e =>
          if isCaughtHumidError e then .homeAssistantError (humidTranslationKey c)
          else .propagated e }

/-- C10: every humidifier command issues exactly the one device
operation its description binds to it (so on a failure no other device
mutator runs), and it raises a HomeAssistantError exactly when the
underlying operation fails with SomeComfortError, TimeoutError or
ClientConnectionError. -/
theorem humid_command_single_call_error_mapping
    (desc : HumidDescription) (c : HumidCommand) (outcome : Option HumidOpError) :
    (runHumidCommand desc c outcome).calls = [boundOp desc c] ∧
    ((∃ k, (runHumidCommand desc c outcome).result = .homeAssistantError k)
      ↔ (∃ e, outcome = some e ∧ isCaughtHumidError e = true)) := by
  refine ⟨rfl, ?_⟩
  constructor
  · rintro ⟨k, hk⟩
    cases outcome with
    | none => simp [runHumidCommand] at hk
    | some e =>
        refine ⟨e, rfl, ?_⟩
        by_contra h
        simp only [runHumidCommand] at hk
        rw [if_neg h] at hk
        cases hk
  · rintro ⟨e, rfl, he⟩
    exact ⟨humidTranslationKey c, by simp [runHumidCommand, he]⟩

end Honeywell
